import Mathlib

/-!
Verification of the spiffe-enable mutating admission webhook.

The definitions below are a shallow embedding of the mutation engine in
`internal/webhook/webhook.go` together with the config renderers in
`internal/proxy/config.go` and `internal/helper/config.go`.  Pods are
modelled by the fields the engine reads and writes: the annotations map,
the volume list, the init container list and the container list (each
container with its name, image, pull policy, command, args, environment
variables, volume mounts and ports).  Fallible Go paths that cannot fail
for the engine's fixed inputs (template parse/render of constant
templates, JSON marshalling) are modelled as total functions.
-/

/- Pod annotations (webhook.go). -/

def enabledAnnKey : String := "spiffe.cofide.io/enabled"

def injectAnnKey : String := "spiffe.cofide.io/inject"

def debugAnnKey : String := "spiffe.cofide.io/debug"

def incBundleAnnKey : String := "spiffe.cofide.io/spiffe-helper-include-intermediate-bundle"

/- Components that can be injected. -/

def injectModeHelper : String := "helper"

def injectModeProxy : String := "proxy"

/- SPIFFE Workload API constants. -/

def spiffeWLVolume : String := "spiffe-workload-api"

def spiffeWLMountPath : String := "/spiffe-workload-api"

def spiffeWLSocketEnvName : String := "SPIFFE_ENDPOINT_SOCKET"

def spiffeWLSocket : String := "unix:///spiffe-workload-api/spire-agent.sock"

def spiffeWLSocketPath : String := "/spiffe-workload-api/spire-agent.sock"

/- SPIFFE Enable constants. -/

def spiffeEnableCertVolumeName : String := "spiffe-enable-certs"

def spiffeEnableCertDirectory : String := "/spiffe-enable"

/- Debug UI constants. -/

def debugUIContainerName : String := "spiffe-enable-ui"

def debugUIPort : Nat := 8000

/- Container images. -/

def spiffeHelperImage : String := "ghcr.io/spiffe/spiffe-helper:0.10.0"

def initHelperImage : String := "010438484483.dkr.ecr.eu-west-1.amazonaws.com/cofide/spiffe-enable-init:v0.1.0-alpha"

def debugUIImage : String := "010438484483.dkr.ecr.eu-west-1.amazonaws.com/cofide/spiffe-enable-ui:v0.1.0-alpha"

/- internal/proxy constants. -/

def envoySidecarContainerName : String := "envoy-sidecar"

def envoyConfigVolumeName : String := "envoy-config"

def envoyConfigMountPath : String := "/etc/envoy"

def envoyConfigFileName : String := "envoy.yaml"

def envoyConfigContentEnvVar : String := "ENVOY_CONFIG_CONTENT"

def envoyConfigInitContainerName : String := "inject-envoy-config"

def envoyImage : String := "envoyproxy/envoy:v1.33-latest"

def envoyProxyPort : Nat := 10000

def agentXDSPort : Nat := 18001

def agentXDSService : String := "cofide-agent.cofide.svc.cluster.local"

/- internal/helper constants. -/

def spiffeHelperConfigVolumeName : String := "spiffe-helper-config"

def spiffeHelperSidecarContainerName : String := "spiffe-helper"

def spiffeHelperConfigContentEnvVar : String := "SPIFFE_HELPER_CONFIG"

def spiffeHelperConfigMountPath : String := "/etc/spiffe-helper"

def spiffeHelperConfigFileName : String := "config.conf"

def spiffeHelperInitContainerName : String := "inject-spiffe-helper-config"

/-- A corev1.VolumeMount restricted to the fields the engine reads or writes. -/
structure VolumeMount where
  name : String
  mountPath : String
  readOnly : Bool
deriving DecidableEq, Repr

/-- A corev1.EnvVar with a literal value. -/
structure EnvVar where
  name : String
  value : String
deriving DecidableEq, Repr

/-- A corev1.Container restricted to the fields the engine reads or writes. -/
structure Container where
  name : String
  image : String
  pullPolicy : String
  command : List String
  args : List String
  env : List EnvVar
  volumeMounts : List VolumeMount
  ports : List Nat
deriving DecidableEq, Repr

/-- The volume sources the engine constructs. -/
inductive VolumeSource where
  | csi (driver : String) (readOnly : Bool)
  | emptyDir
deriving DecidableEq, Repr

/-- A corev1.Volume. -/
structure Volume where
  name : String
  source : VolumeSource
deriving DecidableEq, Repr

/-- The parts of a corev1.PodSpec the engine mutates. -/
structure PodSpec where
  volumes : List Volume
  initContainers : List Container
  containers : List Container
deriving DecidableEq, Repr

/-- A pod: its annotations map (modelled as an association list looked up by
first match, mirroring a Go map with unique keys) and its spec. -/
structure Pod where
  anns : List (String × String)
  spec : PodSpec
deriving DecidableEq, Repr

/-- Go map lookup `pod.Annotations[key]`: the value paired with the comma-ok
bool is modelled as an Option. -/
def annLookup (anns : List (String × String)) (key : String) : Option String :=
  (anns.find? (fun kv => kv.1 == key)).map (fun kv => kv.2)

/-- The volume scan of webhook.go volumeExists, on a pod spec. -/
def volumeExistsS (s : PodSpec) (volumeName : String) : Bool :=
  s.volumes.any (fun vol => vol.name == volumeName)

/-- webhook.go volumeExists: whether a volume with this name is on the pod. -/
def volumeExists (pod : Pod) (volumeName : String) : Bool :=
  volumeExistsS pod.spec volumeName

/-- webhook.go containerExists: whether a container with this name is in the list. -/
def containerExists (containers : List Container) (containerName : String) : Bool :=
  containers.any (fun container => container.name == containerName)

/-- webhook.go envVarExists: whether the container has an env var with this name. -/
def envVarExists (container : Container) (envVarName : String) : Bool :=
  container.env.any (fun e => e.name == envVarName)

/-- The init container scan of webhook.go initContainerExists, on a pod spec. -/
def initContainerExistsS (s : PodSpec) (containerName : String) : Bool :=
  containerExists s.initContainers containerName

/-- webhook.go initContainerExists: containerExists on the init container list. -/
def initContainerExists (pod : Pod) (containerName : String) : Bool :=
  initContainerExistsS pod.spec containerName

/-- The scan inside webhook.go ensureCSIVolumeMount: find the first mount with
the target's name and path; if found, rewrite its ReadOnly flag to the
target's (a no-op when it already matches); otherwise append the target. -/
def ensureMountList (t : VolumeMount) : List VolumeMount → List VolumeMount
  | [] => [t]
  | vm :: rest =>
    if vm.name = t.name ∧ vm.mountPath = t.mountPath then
      { vm with readOnly := t.readOnly } :: rest
    else
      vm :: ensureMountList t rest

/-- webhook.go ensureCSIVolumeMount (the bool return value is unused by Handle). -/
def ensureCSIVolumeMount (container : Container) (targetMount : VolumeMount) : Container :=
  { container with volumeMounts := ensureMountList targetMount container.volumeMounts }

/-- webhook.go ensureEnvVar: append the env var unless one with its name exists. -/
def ensureEnvVar (container : Container) (envVar : EnvVar) : Container :=
  if envVarExists container envVar.name then container
  else { container with env := container.env ++ [envVar] }

/-- The CSI volume added for the SPIFFE Workload API. -/
def csiVolume : Volume :=
  { name := spiffeWLVolume, source := .csi "csi.spiffe.io" true }

/-- The shared identity-socket volume mount. -/
def spiffeVolumeMount : VolumeMount :=
  { name := spiffeWLVolume, mountPath := spiffeWLMountPath, readOnly := true }

/-- The SPIFFE socket environment variable. -/
def spiffeSocketEnvVar : EnvVar :=
  { name := spiffeWLSocketEnvName, value := spiffeWLSocket }

/-- The debug UI sidecar container constructed by Handle. -/
def debugSidecar : Container :=
  { name := debugUIContainerName, image := debugUIImage, pullPolicy := "Always"
  , command := [], args := [], env := [], volumeMounts := [], ports := [debugUIPort] }

/-- The per-container identity mutation applied to every standard container:
ensure the CSI volume mount, then ensure the SPIFFE socket env var. -/
def injectIdentity (container : Container) : Container :=
  ensureEnvVar (ensureCSIVolumeMount container spiffeVolumeMount) spiffeSocketEnvVar

/-- The rendered spiffe-helper configuration (NewSPIFFEHelperConfig): the fixed
template of internal/helper rendered with the given agent address, cert path
and include-intermediate-bundle flag.  The template parses, so the error
return of the Go function is unreachable. -/
def spiffeHelperConfigRender (agentAddress certPath : String) (incBundle : Bool) : String :=
  "\nagent_address = \"" ++ agentAddress ++ "\"\ninclude_federated_domains = true\n"
    ++ (if incBundle then "\nadd_intermediates_to_bundle = true\n" else "")
    ++ "\ncmd = \"\"\ncmd_args = \"\"\ncert_dir = \"" ++ certPath
    ++ "\"\nrenew_signal = \"\"\nsvid_file_name = \"tls.crt\"\nsvid_key_file_name = \"tls.key\"\nsvid_bundle_file_name = \"ca.pem\"\njwt_bundle_file_name = \"cert.jwt\"\njwt_svids = [\x7bjwt_audience=\"aud\", jwt_svid_file_name=\"jwt_svid.token\"\x7d]\ndaemon_mode = true\n"

/-- The shell command of the spiffe-helper config init container
(fmt.Sprintf in webhook.go; the Go format string's `$$` is emitted verbatim). -/
def helperWriteCmd : String :=
  "mkdir -p /etc/spiffe-helper && printf %s \"$$\x7bSPIFFE_HELPER_CONFIG\x7d\" > /etc/spiffe-helper/config.conf && echo -e \"\\n=== SPIFFE Helper Config ===\" && cat /etc/spiffe-helper/config.conf && echo -e \"\\n===========================\""

/-- The init container prepended by helper mode, carrying the rendered config
as the value of SPIFFE_HELPER_CONFIG. -/
def helperInitContainer (cfg : String) : Container :=
  { name := spiffeHelperInitContainerName, image := initHelperImage
  , pullPolicy := "IfNotPresent", command := ["/bin/sh", "-c"], args := [helperWriteCmd]
  , env := [{ name := spiffeHelperConfigContentEnvVar, value := cfg }]
  , volumeMounts :=
      [ { name := spiffeHelperConfigVolumeName, mountPath := spiffeHelperConfigMountPath, readOnly := false }
      , { name := spiffeEnableCertVolumeName, mountPath := spiffeEnableCertDirectory, readOnly := false } ]
  , ports := [] }

/-- The spiffe-helper sidecar container appended by helper mode. -/
def helperSidecar : Container :=
  { name := spiffeHelperSidecarContainerName, image := spiffeHelperImage
  , pullPolicy := "IfNotPresent", command := []
  , args := ["-config", "/etc/spiffe-helper/config.conf"], env := []
  , volumeMounts :=
      [ { name := spiffeHelperConfigVolumeName, mountPath := spiffeHelperConfigMountPath, readOnly := true }
      , { name := spiffeEnableCertVolumeName, mountPath := spiffeEnableCertDirectory, readOnly := false }
      , spiffeVolumeMount ]
  , ports := [] }

/-- The nftables setup script rendered by the proxy config renderer (the
template contains no actions, so rendering emits it verbatim). -/
def envoyInitScript : String :=
  "\nif ! command -v nft &> /dev/null; then\n    echo \"nftables (nft) is not installed\"\n    exit 1\nfi\n\n# These nftables rules intercept DNS requests (UDP+TCP)\n# and redirect to a DNS proxy provided by Envoy\ncat <<EOF > /tmp/dns_redirect.nft\ntable inet envoy_dns_interception \x7b\n    chain redirect_dns_output \x7b\n        type nat hook output priority dstnat; policy accept;\n\n        # Rule to accept DNS from skuid 101 (Envoy) - UDP\n        meta skuid == 101 udp dport 53 counter accept comment \"Accept Envoy UDP DNS\"\n\n        # Rule to accept DNS from skuid 101 (Envoy) - TCP\n        meta skuid == 101 tcp dport 53 counter accept comment \"Accept Envoy TCP DNS\"\n\n        # Rules to redirect DNS\n        meta skuid != 101 udp dport 53 counter redirect to :15053 comment \"Webhook: UDP DNS to Envoy\"\n        meta skuid != 101 tcp dport 53 counter redirect to :15053 comment \"Webhook: TCP DNS to Envoy\"\n    \x7d\n\x7d\nEOF\n\n# Apply the nftables rules from the created file\nnft -f /tmp/dns_redirect.nft\necho \"nftables DNS redirection rules applied.\"\n\necho \"Applied rules:\"\nnft list table inet envoy_dns_interception\n"

/-- The JSON document embedded as ENVOY_CONFIG_CONTENT.  The webhook marshals
the proxy configuration produced at its fixed parameters; its exact bytes are
a deterministic constant (see the C9 development further below, where the
serialization of the config map is modelled in full); it is kept abstractly
here as a named constant string since no Handle-level claim inspects it. -/
def envoyConfigEnvValue : String :=
  "ENVOY-BOOTSTRAP-JSON"

/-- The shell command of the Envoy config init container: write the config
from the env var, then run the nftables script. -/
def envoyInitCmd : String :=
  "set -e; mkdir -p /etc/envoy && printf '%s' \"$\x7bENVOY_CONFIG_CONTENT\x7d\" > /etc/envoy/envoy.yaml && " ++ envoyInitScript

/-- The init container prepended by proxy mode. -/
def envoyInitContainer : Container :=
  { name := envoyConfigInitContainerName, image := initHelperImage
  , pullPolicy := "IfNotPresent", command := ["/bin/sh", "-c"], args := [envoyInitCmd]
  , env := [{ name := envoyConfigContentEnvVar, value := envoyConfigEnvValue }]
  , volumeMounts := [{ name := envoyConfigVolumeName, mountPath := envoyConfigMountPath, readOnly := false }]
  , ports := [] }

/-- The Envoy proxy sidecar container appended by proxy mode. -/
def envoySidecar : Container :=
  { name := envoySidecarContainerName, image := envoyImage
  , pullPolicy := "IfNotPresent", command := ["envoy"]
  , args := ["-c", "/etc/envoy/envoy.yaml"], env := []
  , volumeMounts := [{ name := envoyConfigVolumeName, mountPath := envoyConfigMountPath, readOnly := false }]
  , ports := [envoyProxyPort] }

/-- Append a volume to a pod spec. -/
def addVolumeS (s : PodSpec) (v : Volume) : PodSpec :=
  { s with volumes := s.volumes ++ [v] }

/-- Append a container to a pod spec. -/
def appendContainerS (s : PodSpec) (c : Container) : PodSpec :=
  { s with containers := s.containers ++ [c] }

/-- Prepend an init container to a pod spec (the engine prepends so init
containers it injects run before any pre-existing ones). -/
def prependInitS (s : PodSpec) (c : Container) : PodSpec :=
  { s with initContainers := c :: s.initContainers }

/-- The spec transformation of the phase run for every enabled pod before
mode dispatch: add the CSI volume if absent, add the debug UI sidecar if the
debug annotation requested it and it is absent, then apply the identity
mutation to every standard container.  `debugOn` is the test
`debugAnnotationExists && debugAnnotationValue == "true"` of webhook.go. -/
def identitySpec (debugOn : Bool) (s : PodSpec) : PodSpec :=
  let s := if volumeExistsS s spiffeWLVolume then s else addVolumeS s csiVolume
  let s :=
    if debugOn ∧ ¬ containerExists s.containers debugUIContainerName = true then
      appendContainerS s debugSidecar
    else s
  { s with containers := s.containers.map injectIdentity }

/-- The identity phase on a pod (annotations are read, never written). -/
def identityPhase (pod : Pod) : Pod :=
  { pod with
    spec := identitySpec (annLookup pod.anns debugAnnKey == some "true") pod.spec }

/-- The helper-mode injection on a pod spec: ensure the two emptyDir volumes,
then (if absent) prepend the config-writing init container carrying the
spiffe-helper config rendered with the given include-intermediate-bundle
flag, then (if absent) append the spiffe-helper sidecar. -/
def applyHelperSpec (incBundle : Bool) (s : PodSpec) : PodSpec :=
  let s :=
    if volumeExistsS s spiffeHelperConfigVolumeName then s
    else addVolumeS s { name := spiffeHelperConfigVolumeName, source := .emptyDir }
  let s :=
    if volumeExistsS s spiffeEnableCertVolumeName then s
    else addVolumeS s { name := spiffeEnableCertVolumeName, source := .emptyDir }
  let cfg := spiffeHelperConfigRender spiffeWLSocketPath spiffeEnableCertDirectory incBundle
  let s :=
    if initContainerExistsS s spiffeHelperInitContainerName then s
    else prependInitS s (helperInitContainer cfg)
  if containerExists s.containers spiffeHelperSidecarContainerName then s
  else appendContainerS s helperSidecar

/-- The helper-mode injection: the include-intermediate-bundle flag is the
annotation test `incIntermediateExists && incIntermediateValue == "true"`. -/
def applyHelper (pod : Pod) : Pod :=
  { pod with
    spec := applyHelperSpec (annLookup pod.anns incBundleAnnKey == some "true") pod.spec }

/-- The proxy-mode injection on a pod spec: ensure the emptyDir config
volume, then (if absent) prepend the Envoy config init container, then (if
absent) append the Envoy sidecar.  The render and marshal error paths of the
Go code are unreachable (constant template, marshallable map) and are not
modelled. -/
def applyProxySpec (s : PodSpec) : PodSpec :=
  let s :=
    if volumeExistsS s envoyConfigVolumeName then s
    else addVolumeS s { name := envoyConfigVolumeName, source := .emptyDir }
  let s :=
    if initContainerExistsS s envoyConfigInitContainerName then s
    else prependInitS s envoyInitContainer
  if containerExists s.containers envoySidecarContainerName then s
  else appendContainerS s envoySidecar

/-- The proxy-mode injection on a pod. -/
def applyProxy (pod : Pod) : Pod :=
  { pod with spec := applyProxySpec pod.spec }

/-- Whitespace as recognized by strings.TrimSpace on the engine's inputs. -/
def isSpaceChar (c : Char) : Bool :=
  c = ' ' || c = '\t' || c = '\n' || c = '\r'

/-- strings.TrimSpace: drop leading and trailing whitespace. -/
def trimStr (s : String) : String :=
  String.mk (((s.data.dropWhile isSpaceChar).reverse.dropWhile isSpaceChar).reverse)

/-- strings.Split(s, ","): split on every comma, keeping empty fields. -/
def splitCommaAux : List Char → List Char → List String
  | [], acc => [String.mk acc.reverse]
  | c :: rest, acc =>
    if c = ',' then String.mk acc.reverse :: splitCommaAux rest []
    else splitCommaAux rest (c :: acc)

/-- strings.Split on a comma separator. -/
def splitComma (s : String) : List String :=
  splitCommaAux s.data []

/-- The switch over one (untrimmed) mode token in the injection loop: exactly
the raw strings "proxy" and "helper" select an injector; any other token
(including a valid token still carrying surrounding whitespace) does nothing. -/
def applyMode (pod : Pod) (mode : String) : Pod :=
  if mode = injectModeProxy then applyProxy pod
  else if mode = injectModeHelper then applyHelper pod
  else pod

/-- The validation pass over the split mode tokens: trim each token, drop
empty tokens, and collect those outside the allowed set \x7bhelper, proxy\x7d. -/
def invalidModes (toInject : List String) : List String :=
  toInject.filterMap (fun mode =>
    let trimmedMode := trimStr mode
    if trimmedMode = "" then none
    else if trimmedMode = injectModeHelper ∨ trimmedMode = injectModeProxy then none
    else some trimmedMode)

/-- The decision part of the admission response.  `denied` carries the list
of invalid modes embedded in the Go error message (the message also embeds
the allowed key set in unspecified Go map order).  `patched` stands for
PatchResponseFromRaw against the original bytes: its patch is empty exactly
when the mutated pod equals the input pod. -/
inductive Decision where
  | allowed (msg : String)
  | denied (invalid : List String)
  | patched
deriving DecidableEq, Repr

/-- The outcome of Handle: the decision and the pod object as it stands when
the response is produced. -/
structure HandleResult where
  decision : Decision
  pod : Pod
deriving DecidableEq, Repr

/-- The key by which ensureCSIVolumeMount identifies a volume mount: its
name together with its mount path. -/
def mountKey (vm : VolumeMount) : String × String :=
  (vm.name, vm.mountPath)

/-- No two volume mounts of the container share both name and mount path. -/
def containerMountsOK (c : Container) : Prop :=
  (c.volumeMounts.map mountKey).Nodup

/-- The duplicate-freedom invariant the engine actually maintains: volume
names, container names and init container names are duplicate-free, and no
container (standard or init) has two volume mounts with the same name and
mount path. -/
def SpecOK (s : PodSpec) : Prop :=
  (s.volumes.map Volume.name).Nodup
    ∧ (s.containers.map Container.name).Nodup
    ∧ (s.initContainers.map Container.name).Nodup
    ∧ (∀ c ∈ s.containers, containerMountsOK c)
    ∧ (∀ c ∈ s.initContainers, containerMountsOK c)

/-- SpecOK on a pod. -/
def PodOK (p : Pod) : Prop :=
  SpecOK p.spec

/-- No two volume mounts of the container share a name (the invariant as the
specification states it, keyed by name alone). -/
def mountNamesOK (c : Container) : Prop :=
  (c.volumeMounts.map VolumeMount.name).Nodup

/-- The duplicate-freedom property exactly as claimed: volume names,
container names, init container names duplicate-free, and no container has
two volume mounts with the same name. -/
def podNoDupNames (p : Pod) : Prop :=
  (p.spec.volumes.map Volume.name).Nodup
    ∧ (p.spec.containers.map Container.name).Nodup
    ∧ (p.spec.initContainers.map Container.name).Nodup
    ∧ (∀ c ∈ p.spec.containers, mountNamesOK c)
    ∧ (∀ c ∈ p.spec.initContainers, mountNamesOK c)

instance decContainerMountsOK (c : Container) : Decidable (containerMountsOK c) := by
  unfold containerMountsOK
  infer_instance

instance decSpecOK (s : PodSpec) : Decidable (SpecOK s) := by
  unfold SpecOK
  infer_instance

instance decPodOK (p : Pod) : Decidable (PodOK p) := by
  unfold PodOK
  infer_instance

instance decMountNamesOK (c : Container) : Decidable (mountNamesOK c) := by
  unfold mountNamesOK
  infer_instance

instance decPodNoDupNames (p : Pod) : Decidable (podNoDupNames p) := by
  unfold podNoDupNames
  infer_instance

/-- The tail of Handle after the identity phase: read the inject annotation,
validate the mode list, and on success apply the injections in declaration
order; on failure return Denied with the pod as mutated so far. -/
def injectPhase (pod : Pod) : HandleResult :=
  match annLookup pod.anns injectAnnKey with
  | none => { decision := .patched, pod := pod }
  | some injectVal =>
    if invalidModes (splitComma injectVal) = [] then
      { decision := .patched, pod := (splitComma injectVal).foldl applyMode pod }
    else
      { decision := .denied (invalidModes (splitComma injectVal)), pod := pod }

/-- webhook.go Handle, after a successful decode: gate on the enabled
annotation, run the identity phase, then validate and apply the mode list. -/
def Handle (pod : Pod) : HandleResult :=
  if annLookup pod.anns enabledAnnKey = some "true" then
    injectPhase (identityPhase pod)
  else
    { decision := .allowed "Injection criteria not met", pod := pod }

/-- A plain application container used in concrete inputs. -/
def appContainer : Container :=
  { name := "app", image := "app:1.0", pullPolicy := "IfNotPresent"
  , command := [], args := [], env := [], volumeMounts := [], ports := [] }

/-- A pod whose annotations do not enable injection. -/
def podGateOff : Pod :=
  { anns := [(debugAnnKey, "true"), (injectAnnKey, "helper")]
  , spec := { volumes := [], initContainers := [], containers := [appContainer] } }

/-- An enabled pod requesting helper mode, with an empty spec. -/
def podHelperFresh : Pod :=
  { anns := [(enabledAnnKey, "true"), (injectAnnKey, "helper")]
  , spec := { volumes := [], initContainers := [], containers := [] } }

/-- An enabled pod with no inject annotation and one plain container. -/
def podIdentityOnly : Pod :=
  { anns := [(enabledAnnKey, "true")]
  , spec := { volumes := [], initContainers := [], containers := [appContainer] } }

/-- An enabled pod whose container already mounts the identity volume name at
a different path. -/
def podMountClash : Pod :=
  { anns := [(enabledAnnKey, "true")]
  , spec :=
    { volumes := []
    , initContainers := []
    , containers :=
        [ { appContainer with
              volumeMounts :=
                [{ name := spiffeWLVolume, mountPath := "/other", readOnly := false }] } ] } }

/-- An enabled pod requesting an invalid mode. -/
def podBogusMode : Pod :=
  { anns := [(enabledAnnKey, "true"), (injectAnnKey, "bogus")]
  , spec := { volumes := [], initContainers := [], containers := [appContainer] } }

/-- An enabled pod whose mode list is "helper, proxy" (note the space). -/
def podHelperSpaceProxy : Pod :=
  { anns := [(enabledAnnKey, "true"), (injectAnnKey, "helper, proxy")]
  , spec := { volumes := [], initContainers := [], containers := [] } }

/-- An enabled pod whose mode list is "helper,proxy". -/
def podHelperProxy : Pod :=
  { anns := [(enabledAnnKey, "true"), (injectAnnKey, "helper,proxy")]
  , spec := { volumes := [], initContainers := [], containers := [] } }

/-- An enabled pod requesting helper mode, with a pre-existing init container. -/
def podHelperWithInit : Pod :=
  { anns := [(enabledAnnKey, "true"), (injectAnnKey, "helper")]
  , spec :=
    { volumes := []
    , initContainers := [{ appContainer with name := "pre-init" }]
    , containers := [appContainer] } }

/-- An enabled pod that already carries the identity-socket volume. -/
def podAlreadyHasWL : Pod :=
  { anns := [(enabledAnnKey, "true")]
  , spec := { volumes := [csiVolume], initContainers := [], containers := [] } }

/-- An enabled pod with the debug annotation set. -/
def podDebugOn : Pod :=
  { anns := [(enabledAnnKey, "true"), (debugAnnKey, "true")]
  , spec := { volumes := [], initContainers := [], containers := [appContainer] } }

/-! The proxy bootstrap renderer (internal/proxy config.go, NewEnvoy) and
its serialization.  Go builds the configuration as nested
map[string]interface literals; a Go map is unordered, so the literal is
modelled as its entry list in source order and serialization-relevant
statements quantify over permutations of that list.  encoding/json emits
map keys in sorted order, modelled by canonicalizing before rendering. -/

/-- A JSON document as built by NewEnvoy: strings, naturals, booleans,
arrays and objects (an object is its list of entries). -/
inductive Json where
  | str : String → Json
  | nat : Nat → Json
  | bool : Bool → Json
  | arr : List Json → Json
  | obj : List (String × Json) → Json

/-- The key order used by encoding/json when marshalling a map. -/
def keyLE (a b : String × Json) : Prop :=
  a.1 ≤ b.1

instance decKeyLE : DecidableRel keyLE :=
  fun a b => inferInstanceAs (Decidable (a.1 ≤ b.1))

instance totalKeyLE : IsTotal (String × Json) keyLE :=
  ⟨fun a b => le_total a.1 b.1⟩

instance transKeyLE : IsTrans (String × Json) keyLE :=
  ⟨fun _ _ _ hab hbc => le_trans hab hbc⟩

/-- The strict key order. -/
def keyLT (a b : String × Json) : Prop :=
  a.1 < b.1

instance antisymmKeyLT : IsAntisymm (String × Json) keyLT :=
  ⟨fun _ _ hab hba => absurd hba (lt_asymm hab)⟩

/-- encoding/json sorts the keys of a map before emitting the object. -/
def sortEntries (l : List (String × Json)) : List (String × Json) :=
  List.insertionSort keyLE l

mutual

/-- Canonical form of a document: every object's keys sorted, recursively,
as encoding/json does when marshalling nested maps. -/
def canon : Json → Json
  | .str s => .str s
  | .nat n => .nat n
  | .bool b => .bool b
  | .arr xs => .arr (canonElems xs)
  | .obj kvs => .obj (sortEntries (canonFields kvs))

/-- canon on every element of an array. -/
def canonElems : List Json → List Json
  | [] => []
  | x :: xs => canon x :: canonElems xs

/-- canon on every value of an object. -/
def canonFields : List (String × Json) → List (String × Json)
  | [] => []
  | kv :: kvs => (kv.1, canon kv.2) :: canonFields kvs

end

mutual

/-- Serialize a document, emitting entries in the order given (whitespace of
MarshalIndent omitted; it is fixed and parameter-independent). -/
def renderJson : Json → String
  | .str s => "\"" ++ s ++ "\""
  | .nat n => toString n
  | .bool b => if b then "true" else "false"
  | .arr xs => "[" ++ renderElems xs ++ "]"
  | .obj kvs => "\x7b" ++ renderFields kvs ++ "\x7d"

/-- Comma-separated array elements. -/
def renderElems : List Json → String
  | [] => ""
  | [x] => renderJson x
  | x :: xs => renderJson x ++ "," ++ renderElems xs

/-- Comma-separated key/value fields. -/
def renderFields : List (String × Json) → String
  | [] => ""
  | [kv] => "\"" ++ kv.1 ++ "\":" ++ renderJson kv.2
  | kv :: kvs => "\"" ++ kv.1 ++ "\":" ++ renderJson kv.2 ++ "," ++ renderFields kvs

end

/-- json.Marshal of a document built from maps: canonical key order, then
emission; two marshals are byte-identical iff the canonical forms render
identically. -/
def marshalJson (j : Json) : String :=
  renderJson (canon j)

/-- proxy.EnvoyConfigParams. -/
structure EnvoyConfigParams where
  nodeID : String
  clusterName : String
  adminAddress : String
  adminPort : Nat
  agentXDSService : String
  agentXDSPort : Nat
deriving DecidableEq, Repr

/-- The zero-value defaulting at the top of NewEnvoy. -/
def applyEnvoyDefaults (p : EnvoyConfigParams) : EnvoyConfigParams :=
  let p := if p.nodeID = "" then { p with nodeID := "node" } else p
  let p := if p.clusterName = "" then { p with clusterName := "cluster" } else p
  let p := if p.adminAddress = "" then { p with adminAddress := "127.0.0.1" } else p
  if p.adminPort = 0 then { p with adminPort := 9901 } else p

/-- The cfg map literal of NewEnvoy as its entry list, in source order,
after defaulting. -/
def envoyCfgEntries (params : EnvoyConfigParams) : List (String × Json) :=
  let p := applyEnvoyDefaults params
  [ ("node", .obj [("id", .str p.nodeID), ("cluster", .str p.clusterName)])
  , ("admin", .obj
      [("address", .obj
        [("socket_address", .obj
          [("address", .str p.adminAddress), ("port_value", .nat p.adminPort)])])])
  , ("dynamic_resources", .obj
      [ ("ads_config", .obj
          [ ("api_type", .str "GRPC")
          , ("transport_api_version", .str "V3")
          , ("grpc_services", .arr
              [.obj [("envoy_grpc", .obj [("cluster_name", .str "xds_cluster")])]])
          , ("set_node_on_first_message_only", .bool true) ])
      , ("cds_config", .obj [("resource_api_version", .str "V3"), ("ads", .obj [])])
      , ("lds_config", .obj [("resource_api_version", .str "V3"), ("ads", .obj [])]) ])
  , ("static_resources", .obj
      [ ("clusters", .arr
          [ .obj
              [ ("name", .str "xds_cluster")
              , ("type", .str "LOGICAL_DNS")
              , ("connect_timeout", .str "5s")
              , ("typed_extension_protocol_options", .obj
                  [ ("envoy.extensions.upstreams.http.v3.HttpProtocolOptions", .obj
                      [ ("@type", .str
                          "type.googleapis.com/envoy.extensions.upstreams.http.v3.HttpProtocolOptions")
                      , ("explicit_http_config", .obj
                          [("http2_protocol_options", .obj [])]) ]) ])
              , ("load_assignment", .obj
                  [ ("cluster_name", .str "xds_cluster")
                  , ("endpoints", .arr
                      [ .obj
                          [("lb_endpoints", .arr
                            [ .obj
                                [("endpoint", .obj
                                  [("address", .obj
                                    [("socket_address", .obj
                                      [ ("address", .str p.agentXDSService)
                                      , ("port_value", .nat p.agentXDSPort) ])])])] ])] ]) ]) ] ]) ]) ]

/-- The fixed parameter struct the webhook passes to the proxy renderer
(AdminAddress is left zero and defaulted inside the renderer). -/
def webhookEnvoyParams : EnvoyConfigParams :=
  { nodeID := "node", clusterName := "cluster", adminAddress := ""
  , adminPort := 9901, agentXDSService := agentXDSService
  , agentXDSPort := agentXDSPort }

/-! Basic lemmas about the primitives. -/

theorem annLookup_cons_self (k v : String) (rest : List (String × String)) :
    annLookup ((k, v) :: rest) k = some v := by
  simp [annLookup]

theorem annLookup_cons_ne (k v key : String) (rest : List (String × String))
    (h : ¬ k = key) : annLookup ((k, v) :: rest) key = annLookup rest key := by
  simp [annLookup, List.find?_cons, h]

theorem containerExists_append (l₁ l₂ : List Container) (n : String) :
    containerExists (l₁ ++ l₂) n = (containerExists l₁ n || containerExists l₂ n) := by
  simp [containerExists]

theorem ensureCSIVolumeMount_name (c : Container) (t : VolumeMount) :
    (ensureCSIVolumeMount c t).name = c.name := rfl

theorem ensureCSIVolumeMount_env (c : Container) (t : VolumeMount) :
    (ensureCSIVolumeMount c t).env = c.env := rfl

theorem ensureEnvVar_name (c : Container) (e : EnvVar) :
    (ensureEnvVar c e).name = c.name := by
  unfold ensureEnvVar; split <;> rfl

theorem ensureEnvVar_volumeMounts (c : Container) (e : EnvVar) :
    (ensureEnvVar c e).volumeMounts = c.volumeMounts := by
  unfold ensureEnvVar; split <;> rfl

theorem injectIdentity_name (c : Container) : (injectIdentity c).name = c.name := by
  unfold injectIdentity
  rw [ensureEnvVar_name, ensureCSIVolumeMount_name]

theorem containerExists_map_injectIdentity (l : List Container) (n : String) :
    containerExists (l.map injectIdentity) n = containerExists l n := by
  simp [containerExists, List.any_map, Function.comp_def, injectIdentity_name]

theorem envVarExists_ensureEnvVar (c : Container) (e : EnvVar) :
    envVarExists (ensureEnvVar c e) e.name = true := by
  unfold ensureEnvVar
  split
  · assumption
  · simp [envVarExists]

theorem ensureEnvVar_idem (c : Container) (e : EnvVar) :
    ensureEnvVar (ensureEnvVar c e) e = ensureEnvVar c e := by
  have h := envVarExists_ensureEnvVar c e
  conv_lhs => rw [ensureEnvVar]
  rw [if_pos h]

theorem ensureMountList_idem (t : VolumeMount) (l : List VolumeMount) :
    ensureMountList t (ensureMountList t l) = ensureMountList t l := by
  induction l with
  | nil => simp [ensureMountList]
  | cons vm rest ih =>
    by_cases h : vm.name = t.name ∧ vm.mountPath = t.mountPath
    · simp [ensureMountList, h]
    · have h1 : ensureMountList t (vm :: rest) = vm :: ensureMountList t rest := by
        simp only [ensureMountList, if_neg h]
      have h2 : ensureMountList t (vm :: ensureMountList t rest)
          = vm :: ensureMountList t (ensureMountList t rest) := by
        simp only [ensureMountList, if_neg h]
      rw [h1, h2, ih]

theorem injectIdentity_idem (c : Container) :
    injectIdentity (injectIdentity c) = injectIdentity c := by
  unfold injectIdentity
  have hm : ensureCSIVolumeMount (ensureEnvVar (ensureCSIVolumeMount c spiffeVolumeMount) spiffeSocketEnvVar) spiffeVolumeMount
      = ensureEnvVar (ensureCSIVolumeMount c spiffeVolumeMount) spiffeSocketEnvVar := by
    unfold ensureCSIVolumeMount
    rw [ensureEnvVar_volumeMounts]
    show _ = ensureEnvVar { c with volumeMounts := ensureMountList spiffeVolumeMount c.volumeMounts } spiffeSocketEnvVar
    rw [ensureMountList_idem]
    unfold ensureEnvVar
    split <;> rfl
  rw [hm, ensureEnvVar_idem]

/-! Lemmas about the pipeline phases. -/

theorem volStep_containers (s : PodSpec) :
    (if volumeExistsS s spiffeWLVolume then s else addVolumeS s csiVolume).containers
      = s.containers := by
  split <;> rfl

theorem identitySpec_initContainers (d : Bool) (s : PodSpec) :
    (identitySpec d s).initContainers = s.initContainers := by
  simp only [identitySpec]
  split <;> split <;> rfl

theorem identitySpec_volumes (d : Bool) (s : PodSpec) :
    (identitySpec d s).volumes
      = if volumeExistsS s spiffeWLVolume then s.volumes else s.volumes ++ [csiVolume] := by
  simp only [identitySpec]
  split <;> split <;> rfl

theorem identitySpec_containers (d : Bool) (s : PodSpec) :
    (identitySpec d s).containers
      = (if d ∧ ¬ containerExists s.containers debugUIContainerName = true
          then s.containers ++ [debugSidecar] else s.containers).map injectIdentity := by
  simp only [identitySpec]
  split
  · split <;> rfl
  · rw [show (addVolumeS s csiVolume).containers = s.containers from rfl]
    split <;> rfl

theorem volumeExistsS_identitySpec (d : Bool) (s : PodSpec) (n : String) :
    volumeExistsS (identitySpec d s) n
      = volumeExistsS (if volumeExistsS s spiffeWLVolume then s else addVolumeS s csiVolume) n := by
  show (identitySpec d s).volumes.any (fun vol => vol.name == n) = _
  rw [identitySpec_volumes]
  split <;> rfl

theorem volumeExistsS_identitySpec_wl (d : Bool) (s : PodSpec) :
    volumeExistsS (identitySpec d s) spiffeWLVolume = true := by
  rw [volumeExistsS_identitySpec]
  split
  · assumption
  · simp [volumeExistsS, addVolumeS, csiVolume]

theorem containerExists_identitySpec_of_mem (d : Bool) (s : PodSpec) (n : String)
    (h : containerExists s.containers n = true) :
    containerExists (identitySpec d s).containers n = true := by
  rw [identitySpec_containers, containerExists_map_injectIdentity]
  split
  · rw [containerExists_append, h]
    rfl
  · exact h

theorem containerExists_identitySpec_debug (d : Bool) (s : PodSpec) (hd : d = true) :
    containerExists (identitySpec d s).containers debugUIContainerName = true := by
  rw [identitySpec_containers, containerExists_map_injectIdentity]
  by_cases hc : containerExists s.containers debugUIContainerName = true
  · split
    · rw [containerExists_append, hc]
      rfl
    · exact hc
  · rw [if_pos ⟨hd, hc⟩, containerExists_append]
    have : containerExists [debugSidecar] debugUIContainerName = true := by decide
    rw [this, Bool.or_true]

theorem identitySpec_idem (d : Bool) (s : PodSpec) :
    identitySpec d (identitySpec d s) = identitySpec d s := by
  have hvol := volumeExistsS_identitySpec_wl d s
  conv_lhs => rw [identitySpec]
  simp only [hvol, if_true]
  have hdbg : (if d ∧ ¬ containerExists (identitySpec d s).containers debugUIContainerName = true
      then appendContainerS (identitySpec d s) debugSidecar else identitySpec d s)
        = identitySpec d s := by
    split
    · next h =>
      exact absurd (containerExists_identitySpec_debug d s h.1) h.2
    · rfl
  rw [hdbg]
  have hmap : (identitySpec d s).containers.map injectIdentity = (identitySpec d s).containers := by
    rw [identitySpec_containers, List.map_map]
    apply List.map_congr_left
    intro c _
    exact injectIdentity_idem c
  rw [hmap]

/-! Projection lemmas through the guarded mutation steps. -/

theorem volumeExistsS_ite_append (P : Prop) [Decidable P] (s : PodSpec) (c : Container) (m : String) :
    volumeExistsS (if P then s else appendContainerS s c) m = volumeExistsS s m := by
  split <;> rfl

theorem volumeExistsS_ite_prepend (P : Prop) [Decidable P] (s : PodSpec) (c : Container) (m : String) :
    volumeExistsS (if P then s else prependInitS s c) m = volumeExistsS s m := by
  split <;> rfl

theorem initExistsS_ite_addVol (P : Prop) [Decidable P] (s : PodSpec) (v : Volume) (m : String) :
    initContainerExistsS (if P then s else addVolumeS s v) m = initContainerExistsS s m := by
  split <;> rfl

theorem initExistsS_ite_append (P : Prop) [Decidable P] (s : PodSpec) (c : Container) (m : String) :
    initContainerExistsS (if P then s else appendContainerS s c) m = initContainerExistsS s m := by
  split <;> rfl

theorem containersOf_ite_addVol (P : Prop) [Decidable P] (s : PodSpec) (v : Volume) :
    (if P then s else addVolumeS s v).containers = s.containers := by
  split <;> rfl

theorem containersOf_ite_prepend (P : Prop) [Decidable P] (s : PodSpec) (c : Container) :
    (if P then s else prependInitS s c).containers = s.containers := by
  split <;> rfl

theorem volumeExistsS_addVolumeS (s : PodSpec) (v : Volume) (n : String) :
    volumeExistsS (addVolumeS s v) n = (volumeExistsS s n || (v.name == n)) := by
  simp [volumeExistsS, addVolumeS]

theorem volumeExistsS_vstep_self (s : PodSpec) (n : String) (src : VolumeSource) :
    volumeExistsS (if volumeExistsS s n then s else addVolumeS s { name := n, source := src }) n
      = true := by
  split
  · assumption
  · simp [volumeExistsS, addVolumeS]

theorem volumeExistsS_vstep_mono (s : PodSpec) (n m : String) (src : VolumeSource)
    (h : volumeExistsS s m = true) :
    volumeExistsS (if volumeExistsS s n then s else addVolumeS s { name := n, source := src }) m
      = true := by
  split
  · exact h
  · rw [volumeExistsS_addVolumeS, h]
    rfl

theorem initExistsS_istep_self (s : PodSpec) (n : String) (c : Container) (hc : c.name = n) :
    initContainerExistsS (if initContainerExistsS s n then s else prependInitS s c) n = true := by
  split
  · assumption
  · simp [initContainerExistsS, prependInitS, containerExists, hc]

theorem containerExists_cstep_self (s : PodSpec) (n : String) (c : Container) (hc : c.name = n) :
    containerExists (if containerExists s.containers n then s else appendContainerS s c).containers n
      = true := by
  split
  · assumption
  · simp [appendContainerS, containerExists, hc]

/-! Presence facts after applyHelperSpec, and its idempotence. -/

theorem volumeExistsS_applyHelperSpec_cfg (b : Bool) (s : PodSpec) :
    volumeExistsS (applyHelperSpec b s) spiffeHelperConfigVolumeName = true := by
  simp only [applyHelperSpec]
  rw [volumeExistsS_ite_append, volumeExistsS_ite_prepend]
  apply volumeExistsS_vstep_mono
  exact volumeExistsS_vstep_self s spiffeHelperConfigVolumeName .emptyDir

theorem volumeExistsS_applyHelperSpec_certs (b : Bool) (s : PodSpec) :
    volumeExistsS (applyHelperSpec b s) spiffeEnableCertVolumeName = true := by
  simp only [applyHelperSpec]
  rw [volumeExistsS_ite_append, volumeExistsS_ite_prepend]
  exact volumeExistsS_vstep_self _ spiffeEnableCertVolumeName .emptyDir

theorem initExistsS_applyHelperSpec (b : Bool) (s : PodSpec) :
    initContainerExistsS (applyHelperSpec b s) spiffeHelperInitContainerName = true := by
  simp only [applyHelperSpec]
  rw [initExistsS_ite_append]
  exact initExistsS_istep_self _ _ _ rfl

theorem containerExists_applyHelperSpec_sidecar (b : Bool) (s : PodSpec) :
    containerExists (applyHelperSpec b s).containers spiffeHelperSidecarContainerName = true := by
  simp only [applyHelperSpec]
  exact containerExists_cstep_self _ _ _ rfl

theorem applyHelperSpec_idem (b : Bool) (s : PodSpec) :
    applyHelperSpec b (applyHelperSpec b s) = applyHelperSpec b s := by
  have h1 := volumeExistsS_applyHelperSpec_cfg b s
  have h2 := volumeExistsS_applyHelperSpec_certs b s
  have h3 := initExistsS_applyHelperSpec b s
  have h4 := containerExists_applyHelperSpec_sidecar b s
  conv_lhs => rw [applyHelperSpec]
  simp only [h1, h2, h3, h4, if_true]

/-! Unfolding equations for Handle under each gate and mode situation. -/

theorem identityPhase_anns (pod : Pod) : (identityPhase pod).anns = pod.anns := rfl

theorem applyHelper_anns (pod : Pod) : (applyHelper pod).anns = pod.anns := rfl

theorem applyProxy_anns (pod : Pod) : (applyProxy pod).anns = pod.anns := rfl

theorem applyMode_anns (pod : Pod) (m : String) : (applyMode pod m).anns = pod.anns := by
  unfold applyMode
  split
  · rfl
  · split <;> rfl

theorem foldl_applyMode_anns (ms : List String) (pod : Pod) :
    (ms.foldl applyMode pod).anns = pod.anns := by
  induction ms generalizing pod with
  | nil => rfl
  | cons m rest ih => rw [List.foldl_cons, ih, applyMode_anns]

theorem Handle_eq_gateOff (pod : Pod)
    (h : ¬ annLookup pod.anns enabledAnnKey = some "true") :
    Handle pod = { decision := .allowed "Injection criteria not met", pod := pod } := by
  unfold Handle
  rw [if_neg h]

theorem Handle_eq_noInject (pod : Pod)
    (he : annLookup pod.anns enabledAnnKey = some "true")
    (hi : annLookup pod.anns injectAnnKey = none) :
    Handle pod = { decision := .patched, pod := identityPhase pod } := by
  have hi2 : annLookup (identityPhase pod).anns injectAnnKey = none := hi
  unfold Handle injectPhase
  rw [if_pos he, hi2]

theorem Handle_eq_denied (pod : Pod) (v : String)
    (he : annLookup pod.anns enabledAnnKey = some "true")
    (hv : annLookup pod.anns injectAnnKey = some v)
    (hinv : ¬ invalidModes (splitComma v) = []) :
    Handle pod = { decision := .denied (invalidModes (splitComma v)), pod := identityPhase pod } := by
  have hv2 : annLookup (identityPhase pod).anns injectAnnKey = some v := hv
  unfold Handle injectPhase
  rw [if_pos he, hv2]
  simp only [if_neg hinv]

theorem Handle_eq_inject (pod : Pod) (v : String)
    (he : annLookup pod.anns enabledAnnKey = some "true")
    (hv : annLookup pod.anns injectAnnKey = some v)
    (hinv : invalidModes (splitComma v) = []) :
    Handle pod
      = { decision := .patched, pod := (splitComma v).foldl applyMode (identityPhase pod) } := by
  have hv2 : annLookup (identityPhase pod).anns injectAnnKey = some v := hv
  unfold Handle injectPhase
  rw [if_pos he, hv2]
  simp only [if_pos hinv]

theorem Handle_anns (pod : Pod) : (Handle pod).pod.anns = pod.anns := by
  by_cases he : annLookup pod.anns enabledAnnKey = some "true"
  · cases hv : annLookup pod.anns injectAnnKey with
    | none =>
      rw [Handle_eq_noInject pod he hv]
      rfl
    | some v =>
      by_cases hinv : invalidModes (splitComma v) = []
      · rw [Handle_eq_inject pod v he hv hinv]
        exact foldl_applyMode_anns _ _
      · rw [Handle_eq_denied pod v he hv hinv]
        rfl
  · rw [Handle_eq_gateOff pod he]

/-! Claim C4: gate correctness. -/

/-- C4: for every pod whose annotations lack the enable key or map it to any
string other than exactly "true", Handle returns the allowed decision with
the pod object completely unmodified, regardless of any other annotation. -/
theorem handle_gate_off_noop (pod : Pod)
    (h : annLookup pod.anns enabledAnnKey ≠ some "true") :
    Handle pod = { decision := .allowed "Injection criteria not met", pod := pod } :=
  Handle_eq_gateOff pod h

/-- C4 witness: a pod with mode and debug annotations but no enable key is
allowed and untouched. -/
theorem handle_gate_off_noop_witness :
    annLookup podGateOff.anns enabledAnnKey ≠ some "true"
      ∧ Handle podGateOff
          = { decision := .allowed "Injection criteria not met", pod := podGateOff } :=
  ⟨by decide, handle_gate_off_noop podGateOff (by decide)⟩

/-! Claim C5: trimming does not carry through to injection (code bug). -/

/-- C5: evaluation at the failing input "helper, proxy".  Validation trims
tokens, so the request is not denied; but the injection switch compares the
untrimmed token " proxy", so the proxy injection is silently skipped while
the helper injection is applied. -/
theorem handle_trim_not_carried_to_injection :
    (Handle podHelperSpaceProxy).decision = .patched
      ∧ containerExists (Handle podHelperSpaceProxy).pod.spec.containers
          spiffeHelperSidecarContainerName = true
      ∧ containerExists (Handle podHelperSpaceProxy).pod.spec.containers
          envoySidecarContainerName = false
      ∧ initContainerExists (Handle podHelperSpaceProxy).pod spiffeHelperInitContainerName = true
      ∧ initContainerExists (Handle podHelperSpaceProxy).pod envoyConfigInitContainerName = false := by
  decide

/-! Claim C6: helper init container position - counterexample. -/

/-- C6 counterexample: for the enabled pod with mode list "helper,proxy" the
helper config-writing init container is injected but ends at index 1, not
index 0: the proxy injection, applied after helper, prepends the Envoy
config init container in front of it. -/
theorem helper_init_not_first_counterexample :
    ((Handle podHelperProxy).pod.spec.initContainers.map Container.name)
        = [envoyConfigInitContainerName, spiffeHelperInitContainerName]
      ∧ ¬ ((Handle podHelperProxy).pod.spec.initContainers.map Container.name).head?
          = some spiffeHelperInitContainerName := by
  decide

/-! Claim C3: validate-before-mutate - counterexample. -/

/-- C3 counterexample: the enabled pod requesting mode "bogus" is denied, but
the pod object has been mutated before the denial is produced: the identity
socket volume (among others) has been added, refuting "zero resources are
added to any list on the pod object". -/
theorem denied_after_mutation_counterexample :
    (Handle podBogusMode).decision = .denied ["bogus"]
      ∧ (Handle podBogusMode).pod ≠ podBogusMode
      ∧ volumeExists (Handle podBogusMode).pod spiffeWLVolume = true
      ∧ volumeExists podBogusMode spiffeWLVolume = false := by
  decide

/-! Claim C1: idempotence - counterexample. -/

set_option maxRecDepth 8000 in
/-- C1 counterexample: for the enabled pod with mode "helper" the second run
of Handle changes the pod again: the helper sidecar appended by the first
run only receives the SPIFFE socket env var on the second pass (the
per-container identity loop runs before the injections), so the second
patch is not empty. -/
theorem handle_not_idempotent_counterexample :
    (Handle podHelperFresh).decision = .patched
      ∧ (Handle (Handle podHelperFresh).pod).pod ≠ (Handle podHelperFresh).pod := by
  decide

/-! Claim C8: scenario A - counterexample. -/

/-- C8 counterexample: an enabled pod with annotations exactly
(enabled, "true") that already carries the identity-socket volume gains no
new volume, refuting "exactly one new volume" over all such inputs. -/
theorem scenario_a_not_exact_counterexample :
    (Handle podAlreadyHasWL).pod.spec.volumes.length = podAlreadyHasWL.spec.volumes.length
      ∧ ¬ (Handle podAlreadyHasWL).pod.spec.volumes.length
          = podAlreadyHasWL.spec.volumes.length + 1 := by
  decide

/-! Claim C2: no-duplicate invariant - counterexample. -/

/-- C2 counterexample: a pod whose container mounts the identity volume name
at a different path satisfies the name-keyed no-duplicate property, but the
mutated pod does not: ensureCSIVolumeMount matches mounts by name and path,
so it appends a second mount with the same name. -/
theorem no_dup_names_counterexample :
    podNoDupNames podMountClash ∧ ¬ podNoDupNames (Handle podMountClash).pod := by
  decide

/-! More projection lemmas and mode dispatch equations. -/

theorem identityPhase_spec (pod : Pod) :
    (identityPhase pod).spec
      = identitySpec (annLookup pod.anns debugAnnKey == some "true") pod.spec := rfl

theorem applyHelper_spec (pod : Pod) :
    (applyHelper pod).spec
      = applyHelperSpec (annLookup pod.anns incBundleAnnKey == some "true") pod.spec := rfl

theorem applyProxy_spec (pod : Pod) :
    (applyProxy pod).spec = applyProxySpec pod.spec := rfl

theorem applyMode_helper (pod : Pod) : applyMode pod "helper" = applyHelper pod := by
  have h1 : ¬ ("helper" = injectModeProxy) := by decide
  have h2 : "helper" = injectModeHelper := rfl
  unfold applyMode
  rw [if_neg h1, if_pos h2]

theorem applyMode_proxy (pod : Pod) : applyMode pod "proxy" = applyProxy pod := by
  have h1 : "proxy" = injectModeProxy := rfl
  unfold applyMode
  rw [if_pos h1]

theorem initsOf_ite_addVol (P : Prop) [Decidable P] (s : PodSpec) (v : Volume) :
    (if P then s else addVolumeS s v).initContainers = s.initContainers := by
  split <;> rfl

theorem initsOf_ite_append (P : Prop) [Decidable P] (s : PodSpec) (c : Container) :
    (if P then s else appendContainerS s c).initContainers = s.initContainers := by
  split <;> rfl

theorem applyHelperSpec_inits_of_absent (b : Bool) (s : PodSpec)
    (h : initContainerExistsS s spiffeHelperInitContainerName = false) :
    (applyHelperSpec b s).initContainers
      = helperInitContainer (spiffeHelperConfigRender spiffeWLSocketPath spiffeEnableCertDirectory b)
          :: s.initContainers := by
  simp only [applyHelperSpec, initExistsS_ite_addVol, h, Bool.false_eq_true, if_false,
    initsOf_ite_append, initsOf_ite_addVol, prependInitS]

theorem initExistsS_identitySpec (d : Bool) (s : PodSpec) (n : String) :
    initContainerExistsS (identitySpec d s) n = initContainerExistsS s n := by
  unfold initContainerExistsS
  rw [identitySpec_initContainers]

/-! Claim C6: helper init container position - amended. -/

/-- C6 (amended): for every enabled pod whose mode list is exactly "helper"
and which does not already carry the helper config init container, that init
container is prepended: it ends at index 0 of InitContainers, ahead of every
pre-existing init container.  (When proxy is injected after helper, the
proxy init container is prepended later and displaces it - see the
counterexample - and when the helper init container pre-exists it keeps its
old position.) -/
theorem helper_init_first (pod : Pod)
    (he : annLookup pod.anns enabledAnnKey = some "true")
    (hv : annLookup pod.anns injectAnnKey = some "helper")
    (hno : initContainerExists pod spiffeHelperInitContainerName = false) :
    ((Handle pod).pod.spec.initContainers.map Container.name)
      = spiffeHelperInitContainerName :: (pod.spec.initContainers.map Container.name) := by
  rw [Handle_eq_inject pod "helper" he hv (by decide)]
  show ((splitComma "helper").foldl applyMode (identityPhase pod)).spec.initContainers.map Container.name
      = spiffeHelperInitContainerName :: (pod.spec.initContainers.map Container.name)
  rw [show splitComma "helper" = ["helper"] from by decide]
  show (applyMode (identityPhase pod) "helper").spec.initContainers.map Container.name = _
  rw [applyMode_helper, applyHelper_spec]
  have habs : initContainerExistsS (identityPhase pod).spec spiffeHelperInitContainerName = false := by
    rw [identityPhase_spec, initExistsS_identitySpec]
    exact hno
  rw [applyHelperSpec_inits_of_absent _ _ habs, List.map_cons]
  congr 1
  rw [identityPhase_spec, identitySpec_initContainers]

/-- C6 witness: an enabled "helper" pod with a pre-existing init container;
the helper config init container lands at index 0, in front of it. -/
theorem helper_init_first_witness :
    annLookup podHelperWithInit.anns enabledAnnKey = some "true"
      ∧ annLookup podHelperWithInit.anns injectAnnKey = some "helper"
      ∧ initContainerExists podHelperWithInit spiffeHelperInitContainerName = false
      ∧ ((Handle podHelperWithInit).pod.spec.initContainers.map Container.name)
          = spiffeHelperInitContainerName :: (podHelperWithInit.spec.initContainers.map Container.name) :=
  ⟨by decide, by decide, by decide,
    helper_init_first podHelperWithInit (by decide) (by decide) (by decide)⟩

theorem containerExists_identitySpec_ne_debug (d : Bool) (s : PodSpec) (n : String)
    (hn : (debugSidecar.name == n) = false) :
    containerExists (identitySpec d s).containers n = containerExists s.containers n := by
  rw [identitySpec_containers, containerExists_map_injectIdentity]
  split
  · rw [containerExists_append]
    simp [containerExists, hn]
  · rfl

theorem volumeExistsS_identitySpec_ne_wl (d : Bool) (s : PodSpec) (n : String)
    (hn : (csiVolume.name == n) = false) :
    volumeExistsS (identitySpec d s) n = volumeExistsS s n := by
  rw [volumeExistsS_identitySpec]
  split
  · rfl
  · rw [volumeExistsS_addVolumeS, hn, Bool.or_false]

/-! Claim C3: validate-before-mutate - amended. -/

/-- C3 (amended): for every enabled pod whose mode list yields at least one
invalid token, Handle returns Denied carrying those tokens, and no
capability-specific (helper or proxy) resource is added: the init container
list is untouched and the presence of the helper/envoy sidecars and of the
three capability volumes is unchanged.  However the identity-phase
mutations (CSI volume, per-container mount and env var, debug UI container)
have already been applied to the pod object when the denial is produced. -/
theorem denied_no_capability_resources (pod : Pod) (v : String)
    (he : annLookup pod.anns enabledAnnKey = some "true")
    (hv : annLookup pod.anns injectAnnKey = some v)
    (hinv : ¬ invalidModes (splitComma v) = []) :
    (Handle pod).decision = .denied (invalidModes (splitComma v))
      ∧ (Handle pod).pod = identityPhase pod
      ∧ (Handle pod).pod.spec.initContainers = pod.spec.initContainers
      ∧ containerExists (Handle pod).pod.spec.containers spiffeHelperSidecarContainerName
          = containerExists pod.spec.containers spiffeHelperSidecarContainerName
      ∧ containerExists (Handle pod).pod.spec.containers envoySidecarContainerName
          = containerExists pod.spec.containers envoySidecarContainerName
      ∧ volumeExists (Handle pod).pod spiffeHelperConfigVolumeName
          = volumeExists pod spiffeHelperConfigVolumeName
      ∧ volumeExists (Handle pod).pod spiffeEnableCertVolumeName
          = volumeExists pod spiffeEnableCertVolumeName
      ∧ volumeExists (Handle pod).pod envoyConfigVolumeName
          = volumeExists pod envoyConfigVolumeName := by
  rw [Handle_eq_denied pod v he hv hinv]
  refine ⟨rfl, rfl, ?_, ?_, ?_, ?_, ?_, ?_⟩
  · show (identityPhase pod).spec.initContainers = pod.spec.initContainers
    rw [identityPhase_spec, identitySpec_initContainers]
  · show containerExists (identityPhase pod).spec.containers _ = _
    rw [identityPhase_spec, containerExists_identitySpec_ne_debug _ _ _ (by decide)]
  · show containerExists (identityPhase pod).spec.containers _ = _
    rw [identityPhase_spec, containerExists_identitySpec_ne_debug _ _ _ (by decide)]
  · show volumeExistsS (identityPhase pod).spec _ = volumeExistsS pod.spec _
    rw [identityPhase_spec, volumeExistsS_identitySpec_ne_wl _ _ _ (by decide)]
  · show volumeExistsS (identityPhase pod).spec _ = volumeExistsS pod.spec _
    rw [identityPhase_spec, volumeExistsS_identitySpec_ne_wl _ _ _ (by decide)]
  · show volumeExistsS (identityPhase pod).spec _ = volumeExistsS pod.spec _
    rw [identityPhase_spec, volumeExistsS_identitySpec_ne_wl _ _ _ (by decide)]

/-- C3 witness: the bogus-mode pod is denied with "bogus" reported, its init
containers untouched and no capability sidecar or volume added. -/
theorem denied_no_capability_resources_witness :
    annLookup podBogusMode.anns enabledAnnKey = some "true"
      ∧ annLookup podBogusMode.anns injectAnnKey = some "bogus"
      ∧ ¬ invalidModes (splitComma "bogus") = []
      ∧ (Handle podBogusMode).decision = .denied (invalidModes (splitComma "bogus"))
      ∧ (Handle podBogusMode).pod.spec.initContainers = podBogusMode.spec.initContainers :=
  ⟨by decide, by decide, by decide,
    (denied_no_capability_resources podBogusMode "bogus" (by decide) (by decide) (by decide)).1,
    (denied_no_capability_resources podBogusMode "bogus" (by decide) (by decide) (by decide)).2.2.1⟩

theorem identityPhase_idem (pod : Pod) :
    identityPhase (identityPhase pod) = identityPhase pod := by
  show ({ pod with
      spec := identitySpec (annLookup pod.anns debugAnnKey == some "true")
        (identitySpec (annLookup pod.anns debugAnnKey == some "true") pod.spec) } : Pod)
    = { pod with
      spec := identitySpec (annLookup pod.anns debugAnnKey == some "true") pod.spec }
  rw [identitySpec_idem]

/-! Claim C1: idempotence - amended. -/

/-- C1 (amended): the engine is idempotent on every pod whose mode-list
annotation is absent: running Handle on the pod produced by the first run
returns it unchanged, so the second patch is empty.  (With helper or proxy
in the mode list a second run still mutates the sidecars injected by the
first run - see the counterexample - because the per-container identity loop
runs before the injections.) -/
theorem handle_idempotent_no_inject (pod : Pod)
    (hi : annLookup pod.anns injectAnnKey = none) :
    (Handle (Handle pod).pod).pod = (Handle pod).pod := by
  by_cases he : annLookup pod.anns enabledAnnKey = some "true"
  · rw [Handle_eq_noInject pod he hi]
    show (Handle (identityPhase pod)).pod = identityPhase pod
    have he2 : annLookup (identityPhase pod).anns enabledAnnKey = some "true" := he
    have hi2 : annLookup (identityPhase pod).anns injectAnnKey = none := hi
    rw [Handle_eq_noInject _ he2 hi2]
    show identityPhase (identityPhase pod) = identityPhase pod
    exact identityPhase_idem pod
  · have h1 := Handle_eq_gateOff pod he
    rw [h1]
    show (Handle pod).pod = pod
    rw [h1]

/-- C1 witness: an enabled pod with a debug-free annotation set, no mode
list and one container; the second run returns the first run's pod
unchanged. -/
theorem handle_idempotent_no_inject_witness :
    annLookup podIdentityOnly.anns injectAnnKey = none
      ∧ (Handle (Handle podIdentityOnly).pod).pod = (Handle podIdentityOnly).pod :=
  ⟨by decide, handle_idempotent_no_inject podIdentityOnly (by decide)⟩

theorem applyHelper_twice_spec (p : Pod) :
    (applyHelper (applyHelper p)).spec = (applyHelper p).spec := by
  rw [applyHelper_spec, applyHelper_anns, applyHelper_spec]
  exact applyHelperSpec_idem _ _

theorem applyHelper_spec_congr (p q : Pod)
    (hinc : annLookup p.anns incBundleAnnKey = annLookup q.anns incBundleAnnKey)
    (hspec : p.spec = q.spec) : (applyHelper p).spec = (applyHelper q).spec := by
  rw [applyHelper_spec, applyHelper_spec, hinc, hspec]

theorem identityPhase_spec_congr (p q : Pod)
    (hdbg : annLookup p.anns debugAnnKey = annLookup q.anns debugAnnKey)
    (hspec : p.spec = q.spec) : (identityPhase p).spec = (identityPhase q).spec := by
  rw [identityPhase_spec, identityPhase_spec, hdbg, hspec]

/-! Claim C7: repeated-token deduplication. -/

/-- C7: for every enabled pod, the decision and the mutated pod spec
produced with mode annotation "helper,helper" are identical to those
produced with "helper" alone: the second helper pass finds every resource
already present and changes nothing.  (The two inputs necessarily differ in
the mode annotation string itself, which Handle never writes; identity is
stated of everything Handle produces.) -/
theorem helper_repeated_token_dedup (a : List (String × String)) (s : PodSpec)
    (he : annLookup a enabledAnnKey = some "true") :
    (Handle { anns := (injectAnnKey, "helper,helper") :: a, spec := s }).decision
        = (Handle { anns := (injectAnnKey, "helper") :: a, spec := s }).decision
      ∧ (Handle { anns := (injectAnnKey, "helper,helper") :: a, spec := s }).pod.spec
        = (Handle { anns := (injectAnnKey, "helper") :: a, spec := s }).pod.spec := by
  have hne : ¬ injectAnnKey = enabledAnnKey := by decide
  have hnd : ¬ injectAnnKey = debugAnnKey := by decide
  have hni : ¬ injectAnnKey = incBundleAnnKey := by decide
  have he1 : annLookup ((injectAnnKey, "helper,helper") :: a) enabledAnnKey = some "true" := by
    rw [annLookup_cons_ne _ _ _ _ hne]
    exact he
  have he2 : annLookup ((injectAnnKey, "helper") :: a) enabledAnnKey = some "true" := by
    rw [annLookup_cons_ne _ _ _ _ hne]
    exact he
  have hv1 : annLookup ((injectAnnKey, "helper,helper") :: a) injectAnnKey
      = some "helper,helper" := annLookup_cons_self _ _ _
  have hv2 : annLookup ((injectAnnKey, "helper") :: a) injectAnnKey
      = some "helper" := annLookup_cons_self _ _ _
  rw [Handle_eq_inject _ _ he1 hv1 (by decide), Handle_eq_inject _ _ he2 hv2 (by decide)]
  refine ⟨rfl, ?_⟩
  show ((splitComma "helper,helper").foldl applyMode
        (identityPhase { anns := (injectAnnKey, "helper,helper") :: a, spec := s })).spec
      = ((splitComma "helper").foldl applyMode
        (identityPhase { anns := (injectAnnKey, "helper") :: a, spec := s })).spec
  rw [show splitComma "helper,helper" = ["helper", "helper"] from by decide,
      show splitComma "helper" = ["helper"] from by decide]
  show (applyMode (applyMode (identityPhase { anns := (injectAnnKey, "helper,helper") :: a, spec := s }) "helper") "helper").spec
      = (applyMode (identityPhase { anns := (injectAnnKey, "helper") :: a, spec := s }) "helper").spec
  rw [applyMode_helper, applyMode_helper, applyMode_helper, applyHelper_twice_spec]
  apply applyHelper_spec_congr
  · show annLookup ((injectAnnKey, "helper,helper") :: a) incBundleAnnKey
        = annLookup ((injectAnnKey, "helper") :: a) incBundleAnnKey
    rw [annLookup_cons_ne _ _ _ _ hni, annLookup_cons_ne _ _ _ _ hni]
  · apply identityPhase_spec_congr
    · show annLookup ((injectAnnKey, "helper,helper") :: a) debugAnnKey
          = annLookup ((injectAnnKey, "helper") :: a) debugAnnKey
      rw [annLookup_cons_ne _ _ _ _ hnd, annLookup_cons_ne _ _ _ _ hnd]
    · rfl

/-- C7 witness: a concrete enabled pod; "helper,helper" and "helper"
produce the same decision and mutated spec. -/
theorem helper_repeated_token_dedup_witness :
    annLookup [(enabledAnnKey, "true")] enabledAnnKey = some "true"
      ∧ (Handle { anns := (injectAnnKey, "helper,helper") :: [(enabledAnnKey, "true")]
                , spec := podIdentityOnly.spec }).decision
          = (Handle { anns := (injectAnnKey, "helper") :: [(enabledAnnKey, "true")]
                    , spec := podIdentityOnly.spec }).decision
      ∧ (Handle { anns := (injectAnnKey, "helper,helper") :: [(enabledAnnKey, "true")]
                , spec := podIdentityOnly.spec }).pod.spec
          = (Handle { anns := (injectAnnKey, "helper") :: [(enabledAnnKey, "true")]
                    , spec := podIdentityOnly.spec }).pod.spec := by
  refine ⟨by decide, ?_, ?_⟩
  · exact (helper_repeated_token_dedup [(enabledAnnKey, "true")] podIdentityOnly.spec (by decide)).1
  · exact (helper_repeated_token_dedup [(enabledAnnKey, "true")] podIdentityOnly.spec (by decide)).2

theorem ensureMountList_of_not_mem (t : VolumeMount) (l : List VolumeMount)
    (h : ∀ vm ∈ l, ¬ (vm.name = t.name ∧ vm.mountPath = t.mountPath)) :
    ensureMountList t l = l ++ [t] := by
  induction l with
  | nil => rfl
  | cons vm rest ih =>
    have hvm := h vm (List.mem_cons_self _ _)
    show (if vm.name = t.name ∧ vm.mountPath = t.mountPath then _ else _) = _
    rw [if_neg hvm, ih (fun x hx => h x (List.mem_cons_of_mem _ hx))]
    rfl

/-! Claim C8: scenario A - amended. -/

/-- C8 (amended): for a pod with annotations exactly (enabled, "true") whose
spec does not already carry the identity-socket volume, the identity mount
(by name and path) or the socket env var, the output is exactly: one new
volume (the CSI identity volume) appended, every input container extended
with exactly one new mount and one new env var, and the init container and
container lists otherwise unchanged.  (Without the freshness hypotheses the
deltas can be empty - see the counterexample.) -/
theorem scenario_a_exact (s : PodSpec)
    (hvol : ∀ v ∈ s.volumes, ¬ v.name = spiffeWLVolume)
    (hm : ∀ c ∈ s.containers, ∀ vm ∈ c.volumeMounts,
        ¬ (vm.name = spiffeWLVolume ∧ vm.mountPath = spiffeWLMountPath))
    (henv : ∀ c ∈ s.containers, envVarExists c spiffeWLSocketEnvName = false) :
    Handle { anns := [(enabledAnnKey, "true")], spec := s }
      = { decision := .patched
        , pod :=
          { anns := [(enabledAnnKey, "true")]
          , spec :=
            { volumes := s.volumes ++ [csiVolume]
            , initContainers := s.initContainers
            , containers := s.containers.map (fun c =>
                { c with volumeMounts := c.volumeMounts ++ [spiffeVolumeMount]
                       , env := c.env ++ [spiffeSocketEnvVar] }) } } } := by
  have hwl : volumeExistsS s spiffeWLVolume = false := by
    rw [volumeExistsS, List.any_eq_false]
    intro v hv
    simpa using hvol v hv
  have hspec : identitySpec (annLookup [(enabledAnnKey, "true")] debugAnnKey == some "true") s
      = { volumes := s.volumes ++ [csiVolume]
        , initContainers := s.initContainers
        , containers := s.containers.map (fun c =>
            { c with volumeMounts := c.volumeMounts ++ [spiffeVolumeMount]
                   , env := c.env ++ [spiffeSocketEnvVar] }) } := by
    rw [show (annLookup [(enabledAnnKey, "true")] debugAnnKey == some "true") = false from by decide]
    have h1 : (identitySpec false s).volumes = s.volumes ++ [csiVolume] := by
      rw [identitySpec_volumes, if_neg (by rw [hwl]; exact Bool.false_ne_true)]
    have h2 : (identitySpec false s).initContainers = s.initContainers :=
      identitySpec_initContainers false s
    have h3 : (identitySpec false s).containers = s.containers.map (fun c =>
        { c with volumeMounts := c.volumeMounts ++ [spiffeVolumeMount]
               , env := c.env ++ [spiffeSocketEnvVar] }) := by
      rw [identitySpec_containers,
        if_neg (fun hcontr => absurd hcontr.1 Bool.false_ne_true)]
      apply List.map_congr_left
      intro c hc
      show ensureEnvVar (ensureCSIVolumeMount c spiffeVolumeMount) spiffeSocketEnvVar = _
      rw [ensureCSIVolumeMount, ensureMountList_of_not_mem _ _ (hm c hc)]
      have hEnvF : envVarExists { c with volumeMounts := c.volumeMounts ++ [spiffeVolumeMount] }
          spiffeSocketEnvVar.name = false := henv c hc
      rw [ensureEnvVar, if_neg (by rw [hEnvF]; exact Bool.false_ne_true)]
    calc identitySpec false s
        = { volumes := (identitySpec false s).volumes
          , initContainers := (identitySpec false s).initContainers
          , containers := (identitySpec false s).containers } := rfl
      _ = _ := by rw [h1, h2, h3]
  rw [Handle_eq_noInject { anns := [(enabledAnnKey, "true")], spec := s }
    (show annLookup [(enabledAnnKey, "true")] enabledAnnKey = some "true" from by decide)
    (show annLookup [(enabledAnnKey, "true")] injectAnnKey = none from by decide)]
  show ({ decision := .patched
        , pod :=
          { anns := [(enabledAnnKey, "true")]
          , spec := identitySpec (annLookup [(enabledAnnKey, "true")] debugAnnKey == some "true") s } }
        : HandleResult) = _
  rw [hspec]

/-- C8 witness: a fresh pod with one plain container gains exactly the CSI
volume, one mount and one env var. -/
theorem scenario_a_exact_witness :
    (∀ v ∈ podIdentityOnly.spec.volumes, ¬ v.name = spiffeWLVolume)
      ∧ (∀ c ∈ podIdentityOnly.spec.containers, ∀ vm ∈ c.volumeMounts,
          ¬ (vm.name = spiffeWLVolume ∧ vm.mountPath = spiffeWLMountPath))
      ∧ (∀ c ∈ podIdentityOnly.spec.containers, envVarExists c spiffeWLSocketEnvName = false)
      ∧ Handle { anns := [(enabledAnnKey, "true")], spec := podIdentityOnly.spec }
          = { decision := .patched
            , pod :=
              { anns := [(enabledAnnKey, "true")]
              , spec :=
                { volumes := podIdentityOnly.spec.volumes ++ [csiVolume]
                , initContainers := podIdentityOnly.spec.initContainers
                , containers := podIdentityOnly.spec.containers.map (fun c =>
                    { c with volumeMounts := c.volumeMounts ++ [spiffeVolumeMount]
                           , env := c.env ++ [spiffeSocketEnvVar] }) } } } :=
  ⟨by decide, by decide, by decide,
    scenario_a_exact podIdentityOnly.spec (by decide) (by decide) (by decide)⟩

theorem mem_containers_ite_append (P : Prop) [Decidable P] (s : PodSpec) (c x : Container)
    (h : x ∈ s.containers) : x ∈ (if P then s else appendContainerS s c).containers := by
  split
  · exact h
  · exact List.mem_append_left _ h

theorem mem_containers_ite_prepend (P : Prop) [Decidable P] (s : PodSpec) (c x : Container)
    (h : x ∈ s.containers) : x ∈ (if P then s else prependInitS s c).containers := by
  split <;> exact h

theorem mem_containers_ite_addVol (P : Prop) [Decidable P] (s : PodSpec) (v : Volume)
    (x : Container) (h : x ∈ s.containers) :
    x ∈ (if P then s else addVolumeS s v).containers := by
  split <;> exact h

theorem mem_containers_applyHelperSpec (b : Bool) (s : PodSpec) (x : Container)
    (h : x ∈ s.containers) : x ∈ (applyHelperSpec b s).containers := by
  simp only [applyHelperSpec]
  apply mem_containers_ite_append
  apply mem_containers_ite_prepend
  apply mem_containers_ite_addVol
  apply mem_containers_ite_addVol
  exact h

theorem mem_containers_applyProxySpec (s : PodSpec) (x : Container)
    (h : x ∈ s.containers) : x ∈ (applyProxySpec s).containers := by
  simp only [applyProxySpec]
  apply mem_containers_ite_append
  apply mem_containers_ite_prepend
  apply mem_containers_ite_addVol
  exact h

theorem mem_containers_applyMode (p : Pod) (m : String) (c : Container)
    (h : c ∈ p.spec.containers) : c ∈ (applyMode p m).spec.containers := by
  unfold applyMode
  split
  · exact mem_containers_applyProxySpec p.spec c h
  · split
    · exact mem_containers_applyHelperSpec _ p.spec c h
    · exact h

theorem mem_containers_foldl_applyMode (ms : List String) (p : Pod) (c : Container)
    (h : c ∈ p.spec.containers) : c ∈ ((ms.foldl applyMode p).spec.containers) := by
  induction ms generalizing p with
  | nil => exact h
  | cons m rest ih =>
    rw [List.foldl_cons]
    exact ih _ (mem_containers_applyMode p m c h)

theorem mem_debug_identitySpec (d : Bool) (s : PodSpec) (hd : d = true)
    (hnc : containerExists s.containers debugUIContainerName = false) :
    injectIdentity debugSidecar ∈ (identitySpec d s).containers := by
  rw [identitySpec_containers, if_pos ⟨hd, by rw [hnc]; exact Bool.false_ne_true⟩]
  exact List.mem_map_of_mem _ (List.mem_append_right _ (List.mem_singleton_self _))

/-! Claim C10: the debug annotation triggers a mutation. -/

/-- C10: when the gate is enabled, the debug annotation is exactly "true"
and no container named spiffe-enable-ui exists, Handle appends the debug UI
container; because it is appended before the per-container identity loop,
the resulting container also carries the identity volume mount and the
SPIFFE socket env var, besides its name and port 8000. -/
theorem debug_ui_container_injected (pod : Pod)
    (he : annLookup pod.anns enabledAnnKey = some "true")
    (hd : annLookup pod.anns debugAnnKey = some "true")
    (hnc : containerExists pod.spec.containers debugUIContainerName = false) :
    ∃ c ∈ (Handle pod).pod.spec.containers,
      c.name = debugUIContainerName ∧ c.ports = [debugUIPort]
        ∧ spiffeVolumeMount ∈ c.volumeMounts ∧ spiffeSocketEnvVar ∈ c.env := by
  have hmem : injectIdentity debugSidecar ∈ (identityPhase pod).spec.containers := by
    rw [identityPhase_spec]
    exact mem_debug_identitySpec _ _ (by rw [hd]; decide) hnc
  refine ⟨injectIdentity debugSidecar, ?_, by decide, by decide, by decide, by decide⟩
  cases hv : annLookup pod.anns injectAnnKey with
  | none =>
    rw [Handle_eq_noInject pod he hv]
    exact hmem
  | some v =>
    by_cases hinv : invalidModes (splitComma v) = []
    · rw [Handle_eq_inject pod v he hv hinv]
      show _ ∈ ((splitComma v).foldl applyMode (identityPhase pod)).spec.containers
      exact mem_containers_foldl_applyMode _ _ _ hmem
    · rw [Handle_eq_denied pod v he hv hinv]
      exact hmem

/-- C10 witness: an enabled pod with the debug annotation and one app
container receives the spiffe-enable-ui container with port 8000, the
identity mount and the socket env var. -/
theorem debug_ui_container_injected_witness :
    annLookup podDebugOn.anns enabledAnnKey = some "true"
      ∧ annLookup podDebugOn.anns debugAnnKey = some "true"
      ∧ containerExists podDebugOn.spec.containers debugUIContainerName = false
      ∧ ∃ c ∈ (Handle podDebugOn).pod.spec.containers,
          c.name = debugUIContainerName ∧ c.ports = [debugUIPort]
            ∧ spiffeVolumeMount ∈ c.volumeMounts ∧ spiffeSocketEnvVar ∈ c.env :=
  ⟨by decide, by decide, by decide,
    debug_ui_container_injected podDebugOn (by decide) (by decide) (by decide)⟩

/-! Duplicate-freedom preservation (claim C2, amended). -/

theorem nodup_concat {α : Type} (l : List α) (a : α) (h : l.Nodup) (ha : a ∉ l) :
    (l ++ [a]).Nodup := by
  rw [List.Perm.nodup_iff (List.perm_append_singleton a l)]
  exact List.nodup_cons.mpr ⟨ha, h⟩

theorem not_mem_volume_names (s : PodSpec) (n : String)
    (hg : ¬ volumeExistsS s n = true) : n ∉ s.volumes.map Volume.name := by
  intro hmem
  apply hg
  rw [volumeExistsS, List.any_eq_true]
  obtain ⟨v, hvmem, heq⟩ := List.mem_map.mp hmem
  exact ⟨v, hvmem, by rw [heq]; exact beq_self_eq_true n⟩

theorem not_mem_container_names (l : List Container) (n : String)
    (hg : ¬ containerExists l n = true) : n ∉ l.map Container.name := by
  intro hmem
  apply hg
  rw [containerExists, List.any_eq_true]
  obtain ⟨c, hcmem, heq⟩ := List.mem_map.mp hmem
  exact ⟨c, hcmem, by rw [heq]; exact beq_self_eq_true n⟩

theorem mountKey_ensureMountList_mem (t : VolumeMount) (l : List VolumeMount)
    (x : String × String) (hx : x ∈ (ensureMountList t l).map mountKey) :
    x ∈ l.map mountKey ∨ x = mountKey t := by
  induction l with
  | nil =>
    right
    simpa [ensureMountList] using hx
  | cons vm rest ih =>
    by_cases h : vm.name = t.name ∧ vm.mountPath = t.mountPath
    · simp only [ensureMountList, if_pos h, List.map_cons] at hx
      rcases List.mem_cons.mp hx with heq | htail
      · left
        rw [List.map_cons]
        exact List.mem_cons.mpr (Or.inl heq)
      · left
        rw [List.map_cons]
        exact List.mem_cons.mpr (Or.inr htail)
    · simp only [ensureMountList, if_neg h, List.map_cons] at hx
      rcases List.mem_cons.mp hx with heq | htail
      · left
        rw [List.map_cons]
        exact List.mem_cons.mpr (Or.inl heq)
      · rcases ih htail with hin | hkey
        · left
          rw [List.map_cons]
          exact List.mem_cons.mpr (Or.inr hin)
        · right
          exact hkey

theorem nodup_mountKey_ensureMountList (t : VolumeMount) (l : List VolumeMount)
    (h : (l.map mountKey).Nodup) : ((ensureMountList t l).map mountKey).Nodup := by
  induction l with
  | nil => simp [ensureMountList]
  | cons vm rest ih =>
    by_cases hm : vm.name = t.name ∧ vm.mountPath = t.mountPath
    · simp only [ensureMountList, if_pos hm, List.map_cons]
      exact h
    · simp only [ensureMountList, if_neg hm, List.map_cons]
      rw [List.map_cons, List.nodup_cons] at h
      rw [List.nodup_cons]
      constructor
      · intro hmem
        rcases mountKey_ensureMountList_mem t rest _ hmem with hin | heq
        · exact h.1 hin
        · exact hm ⟨congrArg Prod.fst heq, congrArg Prod.snd heq⟩
      · exact ih h.2

theorem containerMountsOK_injectIdentity (c : Container) (h : containerMountsOK c) :
    containerMountsOK (injectIdentity c) := by
  unfold containerMountsOK at h ⊢
  rw [show (injectIdentity c).volumeMounts
      = ensureMountList spiffeVolumeMount c.volumeMounts from by
    unfold injectIdentity
    rw [ensureEnvVar_volumeMounts]
    rfl]
  exact nodup_mountKey_ensureMountList _ _ h

theorem names_map_injectIdentity (l : List Container) :
    (l.map injectIdentity).map Container.name = l.map Container.name := by
  rw [List.map_map]
  apply List.map_congr_left
  intro x _
  exact injectIdentity_name x

theorem SpecOK_identitySpec (d : Bool) (s : PodSpec) (h : SpecOK s) :
    SpecOK (identitySpec d s) := by
  obtain ⟨hv, hc, hi, hcm, him⟩ := h
  refine ⟨?_, ?_, ?_, ?_, ?_⟩
  · rw [identitySpec_volumes]
    split
    · exact hv
    · next hg =>
      rw [List.map_append]
      exact nodup_concat _ _ hv (not_mem_volume_names s spiffeWLVolume hg)
  · rw [identitySpec_containers, names_map_injectIdentity]
    split
    · next hdbg =>
      rw [List.map_append]
      exact nodup_concat _ _ hc (not_mem_container_names _ _ hdbg.2)
    · exact hc
  · rw [identitySpec_initContainers]
    exact hi
  · rw [identitySpec_containers]
    intro c hcmem
    obtain ⟨c0, hc0, rfl⟩ := List.mem_map.mp hcmem
    apply containerMountsOK_injectIdentity
    split at hc0
    · rcases List.mem_append.mp hc0 with hin | hdbg
      · exact hcm c0 hin
      · rw [List.mem_singleton.mp hdbg]
        decide
    · exact hcm c0 hc0
  · rw [identitySpec_initContainers]
    exact him

theorem SpecOK_vstep (s : PodSpec) (n : String) (src : VolumeSource) (h : SpecOK s) :
    SpecOK (if volumeExistsS s n then s else addVolumeS s { name := n, source := src }) := by
  split
  · exact h
  · next hg =>
    refine ⟨?_, h.2.1, h.2.2.1, h.2.2.2.1, h.2.2.2.2⟩
    show ((s.volumes ++ [({ name := n, source := src } : Volume)]).map Volume.name).Nodup
    rw [List.map_append]
    exact nodup_concat _ _ h.1 (not_mem_volume_names s n hg)

theorem SpecOK_istep (s : PodSpec) (n : String) (c : Container)
    (hcn : c.name = n) (hok : containerMountsOK c) (h : SpecOK s) :
    SpecOK (if initContainerExistsS s n then s else prependInitS s c) := by
  split
  · exact h
  · next hg =>
    refine ⟨h.1, h.2.1, ?_, h.2.2.2.1, ?_⟩
    · show ((c :: s.initContainers).map Container.name).Nodup
      rw [List.map_cons]
      refine List.nodup_cons.mpr ⟨?_, h.2.2.1⟩
      rw [hcn]
      exact not_mem_container_names _ _ hg
    · intro x hx
      rcases List.mem_cons.mp hx with rfl | hxs
      · exact hok
      · exact h.2.2.2.2 x hxs

theorem SpecOK_cstep (s : PodSpec) (n : String) (c : Container)
    (hcn : c.name = n) (hok : containerMountsOK c) (h : SpecOK s) :
    SpecOK (if containerExists s.containers n then s else appendContainerS s c) := by
  split
  · exact h
  · next hg =>
    refine ⟨h.1, ?_, h.2.2.1, ?_, h.2.2.2.2⟩
    · show ((s.containers ++ [c]).map Container.name).Nodup
      rw [List.map_append, show List.map Container.name [c] = [n] from by simp [hcn]]
      exact nodup_concat _ _ h.2.1 (not_mem_container_names _ _ hg)
    · intro x hx
      rcases List.mem_append.mp hx with hxs | hxc
      · exact h.2.2.2.1 x hxs
      · rw [List.mem_singleton.mp hxc]
        exact hok

theorem SpecOK_applyHelperSpec (b : Bool) (s : PodSpec) (h : SpecOK s) :
    SpecOK (applyHelperSpec b s) := by
  have hokInit : containerMountsOK
      (helperInitContainer (spiffeHelperConfigRender spiffeWLSocketPath spiffeEnableCertDirectory b)) := by
    show (([ { name := spiffeHelperConfigVolumeName, mountPath := spiffeHelperConfigMountPath
             , readOnly := false }
           , { name := spiffeEnableCertVolumeName, mountPath := spiffeEnableCertDirectory
             , readOnly := false } ] : List VolumeMount).map mountKey).Nodup
    decide
  simp only [applyHelperSpec]
  refine SpecOK_cstep _ spiffeHelperSidecarContainerName helperSidecar rfl (by decide) ?_
  refine SpecOK_istep _ spiffeHelperInitContainerName _ rfl hokInit ?_
  exact SpecOK_vstep _ _ _ (SpecOK_vstep _ _ _ h)

theorem SpecOK_applyProxySpec (s : PodSpec) (h : SpecOK s) :
    SpecOK (applyProxySpec s) := by
  simp only [applyProxySpec]
  refine SpecOK_cstep _ envoySidecarContainerName envoySidecar rfl (by decide) ?_
  refine SpecOK_istep _ envoyConfigInitContainerName envoyInitContainer rfl (by decide) ?_
  exact SpecOK_vstep _ _ _ h

theorem PodOK_applyMode (p : Pod) (m : String) (h : PodOK p) : PodOK (applyMode p m) := by
  unfold applyMode
  split
  · exact SpecOK_applyProxySpec p.spec h
  · split
    · exact SpecOK_applyHelperSpec _ p.spec h
    · exact h

theorem PodOK_foldl_applyMode (ms : List String) (p : Pod) (h : PodOK p) :
    PodOK (ms.foldl applyMode p) := by
  induction ms generalizing p with
  | nil => exact h
  | cons m rest ih =>
    rw [List.foldl_cons]
    exact ih _ (PodOK_applyMode p m h)

/-! Claim C2: no-duplicate invariant - amended. -/

/-- C2 (amended): for every input pod that itself satisfies the
duplicate-freedom invariant with VolumeMounts keyed by (name, mountPath) -
volume names, container names and init container names duplicate-free, and
no container with two mounts sharing both name and path - the pod produced
by Handle satisfies it too.  Keyed by mount name alone the invariant is not
preserved (see the counterexample). -/
theorem podOK_Handle (pod : Pod) (h : PodOK pod) : PodOK (Handle pod).pod := by
  by_cases he : annLookup pod.anns enabledAnnKey = some "true"
  · have hid : PodOK (identityPhase pod) := SpecOK_identitySpec _ _ h
    cases hv : annLookup pod.anns injectAnnKey with
    | none =>
      rw [Handle_eq_noInject pod he hv]
      exact hid
    | some v =>
      by_cases hinv : invalidModes (splitComma v) = []
      · rw [Handle_eq_inject pod v he hv hinv]
        exact PodOK_foldl_applyMode _ _ hid
      · rw [Handle_eq_denied pod v he hv hinv]
        exact hid
  · rw [Handle_eq_gateOff pod he]
    exact h

/-- C2 witness: an enabled pod with mode "helper,proxy" and one app
container; the input satisfies the keyed invariant and so does the output. -/
theorem podOK_Handle_witness :
    PodOK podHelperProxy ∧ PodOK (Handle podHelperProxy).pod :=
  ⟨by decide, podOK_Handle podHelperProxy (by decide)⟩

/-! Claim C9: proxy bootstrap renderer determinism. -/

theorem canonFields_eq_map (l : List (String × Json)) :
    canonFields l = l.map (fun kv => (kv.1, canon kv.2)) := by
  induction l with
  | nil => rfl
  | cons kv kvs ih => rw [canonFields, ih, List.map_cons]

theorem canonFields_fst (l : List (String × Json)) :
    (canonFields l).map Prod.fst = l.map Prod.fst := by
  rw [canonFields_eq_map, List.map_map]
  rfl

theorem sortEntries_perm (l : List (String × Json)) : (sortEntries l).Perm l :=
  List.perm_insertionSort keyLE l

theorem sortEntries_sorted (l : List (String × Json)) :
    List.Sorted keyLE (sortEntries l) :=
  List.sorted_insertionSort keyLE l

theorem sorted_keyLT_of_nodup (l : List (String × Json))
    (hs : List.Sorted keyLE l) (hnd : (l.map Prod.fst).Nodup) :
    List.Sorted keyLT l := by
  have hnd2 : (l.map Prod.fst).Pairwise (fun a b => a ≠ b) := hnd
  rw [List.pairwise_map] at hnd2
  exact (hs.and hnd2).imp (fun h => lt_of_le_of_ne h.1 h.2)

theorem sortEntries_eq_of_perm (l₁ l₂ : List (String × Json))
    (hp : l₁.Perm l₂) (hnd : (l₂.map Prod.fst).Nodup) :
    sortEntries l₁ = sortEntries l₂ := by
  have hnd₁ : (l₁.map Prod.fst).Nodup := ((hp.map Prod.fst).nodup_iff).mpr hnd
  have hndS₁ : ((sortEntries l₁).map Prod.fst).Nodup :=
    (((sortEntries_perm l₁).map Prod.fst).nodup_iff).mpr hnd₁
  have hndS₂ : ((sortEntries l₂).map Prod.fst).Nodup :=
    (((sortEntries_perm l₂).map Prod.fst).nodup_iff).mpr hnd
  refine List.eq_of_perm_of_sorted ?_
    (sorted_keyLT_of_nodup _ (sortEntries_sorted l₁) hndS₁)
    (sorted_keyLT_of_nodup _ (sortEntries_sorted l₂) hndS₂)
  exact ((sortEntries_perm l₁).trans hp).trans (sortEntries_perm l₂).symm

theorem envoyCfgEntries_keys (params : EnvoyConfigParams) :
    (envoyCfgEntries params).map Prod.fst
      = ["node", "admin", "dynamic_resources", "static_resources"] := rfl

/-- C9: determinism of the serialized proxy bootstrap configuration.  The
configuration is built as a Go map, whose iteration order is arbitrary: for
any permutation of the entry list of the config map built by NewEnvoy from
given parameters, marshalling yields the same bytes as marshalling the
source-order entry list, because encoding/json emits object keys in sorted
order (the same fixed order on every render).  Hence two invocations with
identical parameter structs produce byte-identical documents. -/
theorem envoy_config_marshal_deterministic (params : EnvoyConfigParams)
    (kvs : List (String × Json)) (hperm : kvs.Perm (envoyCfgEntries params)) :
    marshalJson (Json.obj kvs) = marshalJson (Json.obj (envoyCfgEntries params)) := by
  unfold marshalJson
  have hc : ∀ (l : List (String × Json)),
      canon (Json.obj l) = Json.obj (sortEntries (canonFields l)) := fun l => by
    rw [canon]
  rw [hc, hc]
  have hfield : (canonFields kvs).Perm (canonFields (envoyCfgEntries params)) := by
    rw [canonFields_eq_map, canonFields_eq_map]
    exact hperm.map _
  have hnd : ((canonFields (envoyCfgEntries params)).map Prod.fst).Nodup := by
    rw [canonFields_fst, envoyCfgEntries_keys]
    decide
  rw [sortEntries_eq_of_perm _ _ hfield hnd]

/-- C9 witness: at the webhook's fixed parameters, marshalling the reversed
entry list gives the same bytes as marshalling the source-order list. -/
theorem envoy_config_marshal_deterministic_witness :
    ((envoyCfgEntries webhookEnvoyParams).reverse).Perm (envoyCfgEntries webhookEnvoyParams)
      ∧ marshalJson (Json.obj ((envoyCfgEntries webhookEnvoyParams).reverse))
          = marshalJson (Json.obj (envoyCfgEntries webhookEnvoyParams)) :=
  ⟨List.reverse_perm _,
    envoy_config_marshal_deterministic webhookEnvoyParams _ (List.reverse_perm _)⟩
